import Mathlib

/-!
Verification of the frame-anchor, safepoint-poll and class-object primitives
of the runtime fragment (javaFrameAnchor_x86.hpp, interfaceSupport_windows.hpp,
klassOop.hpp), as a shallow embedding in Lean 4.

Machine words (`intptr_t*`, addresses) are modelled as `Nat`, with `0` playing
the role of the `NULL` / "absent" sentinel. Each anchor mutation is modelled as
the list of single-field stores the C++ body performs, in program order, so
that the sequence of intermediate states ("observable instants") is explicit.
-/

/-- The per-thread frame anchor: `_last_Java_sp` (declared in the shared part
of the class), `_last_Java_fp` and `_last_Java_pc` from
javaFrameAnchor_x86.hpp. All three are machine words; `0` is `NULL`. -/
structure JavaFrameAnchor where
  last_Java_sp : Nat
  last_Java_fp : Nat
  last_Java_pc : Nat
deriving DecidableEq, Repr

/-- The three mutable fields of a frame anchor. -/
inductive AnchorField
  | sp
  | fp
  | pc
deriving DecidableEq, Repr

/-- One store to one anchor field: the unit of observability (each C++
statement in `clear`/`copy` is a single volatile word store). -/
structure WriteEvent where
  field : AnchorField
  value : Nat
deriving DecidableEq, Repr

/-- Effect of a single field store on an anchor. -/
def applyWrite (a : JavaFrameAnchor) (w : WriteEvent) : JavaFrameAnchor :=
  match w.field with
  | AnchorField.sp => { a with last_Java_sp := w.value }
  | AnchorField.fp => { a with last_Java_fp := w.value }
  | AnchorField.pc => { a with last_Java_pc := w.value }

/-- Run a list of field stores in program order. -/
def runWrites (a : JavaFrameAnchor) (ws : List WriteEvent) : JavaFrameAnchor :=
  ws.foldl applyWrite a

/-- All states an external reader can sample while the writes execute: the
initial state, every intermediate state, and the final state. -/
def writeStates (a : JavaFrameAnchor) : List WriteEvent → List JavaFrameAnchor
  | [] => [a]
  | w :: ws => a :: writeStates (applyWrite a w) ws

/-- Store sequence of `JavaFrameAnchor::clear`: `_last_Java_sp = NULL` first
(the comment in the source says clearing `_last_Java_sp` must be first), then
`_last_Java_fp = NULL`, then `_last_Java_pc = NULL`. -/
def clearWrites : List WriteEvent :=
  [⟨AnchorField.sp, 0⟩, ⟨AnchorField.fp, 0⟩, ⟨AnchorField.pc, 0⟩]

/-- `JavaFrameAnchor::clear`. -/
def clear (a : JavaFrameAnchor) : JavaFrameAnchor :=
  runWrites a clearWrites

/-- Store sequence of `JavaFrameAnchor::copy(src)`: `_last_Java_sp = NULL`
only when the value is changing (the 4717480/4721647 bugfix guard), then
`_last_Java_fp`, then `_last_Java_pc`, and `_last_Java_sp` last. -/
def copyWrites (dst src : JavaFrameAnchor) : List WriteEvent :=
  (if dst.last_Java_sp ≠ src.last_Java_sp then [⟨AnchorField.sp, 0⟩] else []) ++
  [⟨AnchorField.fp, src.last_Java_fp⟩,
   ⟨AnchorField.pc, src.last_Java_pc⟩,
   ⟨AnchorField.sp, src.last_Java_sp⟩]

/-- `JavaFrameAnchor::copy`. -/
def copy (dst src : JavaFrameAnchor) : JavaFrameAnchor :=
  runWrites dst (copyWrites dst src)

/-- `JavaFrameAnchor::walkable`: the x86 anchor is always walkable. -/
def walkable (_a : JavaFrameAnchor) : Bool :=
  true

/-- `JavaFrameAnchor::make_walkable(JavaThread*)`: empty body, no state
change (the thread argument is modelled as an opaque word). -/
def make_walkable (_thread : Nat) (a : JavaFrameAnchor) : JavaFrameAnchor :=
  a

/-- The operations the single writer thread may execute on its anchor. -/
inductive AnchorOp
  | clearOp
  | copyOp (src : JavaFrameAnchor)
deriving DecidableEq, Repr

/-- Store sequence of an anchor operation executed on anchor `a`. -/
def opWrites (a : JavaFrameAnchor) : AnchorOp → List WriteEvent
  | AnchorOp.clearOp => clearWrites
  | AnchorOp.copyOp src => copyWrites a src

/-- Final state of an anchor operation. -/
def runOp (a : JavaFrameAnchor) (op : AnchorOp) : JavaFrameAnchor :=
  runWrites a (opWrites a op)

/-- Every state a concurrent reader can sample during an anchor operation. -/
def samples (a : JavaFrameAnchor) (op : AnchorOp) : List JavaFrameAnchor :=
  writeStates a (opWrites a op)

/-- Guard under which the spec's tear-freedom argument applies: `clear`
always, `copy` only when the incoming SP differs from the current one. -/
def sampleGuard (a : JavaFrameAnchor) : AnchorOp → Bool
  | AnchorOp.clearOp => true
  | AnchorOp.copyOp src => a.last_Java_sp != src.last_Java_sp

section SafepointPoll

/-- SEH filter verdict `EXCEPTION_EXECUTE_HANDLER`. -/
def EXCEPTION_EXECUTE_HANDLER : Int := 1

/-- SEH filter verdict `EXCEPTION_CONTINUE_SEARCH`. -/
def EXCEPTION_CONTINUE_SEARCH : Int := 0

/-- Outcome of the protected store performed by
`os::write_memory_serialize_page(thread)` inside the `__try` block: the store
either succeeds, or raises a protection fault at some address (it faults when
the serialization page is protected mid-poll by the remote membar logic). -/
inductive WriteOutcome
  | ok
  | fault (addr : Nat)
deriving DecidableEq, Repr

/-- Observable result of `serialize_memory`: the call either completes
normally, or the fault propagates unchanged to outer handlers. -/
inductive SEHResult
  | completed
  | propagated (addr : Nat)
deriving DecidableEq, Repr

/-- Modelled from the spec: the body of `os::win32::serialize_fault_filter`
is declared outside this fragment (only its call site is in
interfaceSupport_windows.hpp). Per the spec it classifies a fault as a real
safepoint(serialization)-page fault exactly when the faulting address is the
serialization page, answering `EXCEPTION_EXECUTE_HANDLER` then and
`EXCEPTION_CONTINUE_SEARCH` for every other address. `page` is the
serialization page's address. -/
def serialize_fault_filter (page : Nat) (faultAddr : Nat) : Int :=
  if faultAddr = page then EXCEPTION_EXECUTE_HANDLER else EXCEPTION_CONTINUE_SEARCH

/-- `serialize_memory(thread)`: `__try { os::write_memory_serialize_page(thread); }
__except (os::win32::serialize_fault_filter(...)) {}` — per SEH semantics, a
fault in the try body runs the filter; verdict `EXCEPTION_EXECUTE_HANDLER`
executes the (empty) handler body and continues after it, any other verdict
lets the fault propagate to outer handlers. -/
def serialize_memory (page : Nat) (w : WriteOutcome) : SEHResult :=
  match w with
  | WriteOutcome.ok => SEHResult.completed
  | WriteOutcome.fault a =>
      if serialize_fault_filter page a = EXCEPTION_EXECUTE_HANDLER then
        SEHResult.completed
      else
        SEHResult.propagated a

end SafepointPoll

section KlassOop

/-- Modelled from the spec and the layout comment in klassOop.hpp
(`[header][klass_field][KLASS]`): the definition of `oopDesc` is outside this
fragment; a `klassOopDesc` is an `oopDesc` (one header word plus one
klass-field word, each of `w = HeapWordSize` bytes) adding no fields of its
own, so `sizeof(klassOopDesc)` is two machine words. Everything is kept
parametric in the word size `w`. -/
def sizeofKlassOopDesc (w : Nat) : Nat :=
  2 * w

/-- `klassOopDesc::header_size()`: `sizeof(klassOopDesc)/HeapWordSize`
(C++ integer division), a static function of no arguments. -/
def header_size (w : Nat) : Nat :=
  sizeofKlassOopDesc w / w

/-- `klassOopDesc::klass_part_offset_in_bytes()`: `sizeof(klassOopDesc)`,
a static function of no arguments. -/
def klass_part_offset_in_bytes (w : Nat) : Nat :=
  sizeofKlassOopDesc w

/-- `klassOopDesc::klass_part()`:
`(Klass*)((address)this + klass_part_offset_in_bytes())` — pure address
arithmetic on the receiver's base address `base`; no memory is read. -/
def klass_part (w : Nat) (base : Nat) : Nat :=
  base + klass_part_offset_in_bytes w

/-- Formalisation of the claim's wording, for comparison with `klass_part`:
an accessor that dereferences a pointer field stored at the fixed offset from
the object base, in a heap modelled as `mem : Nat → Nat`. -/
def klass_part_deref_spec (mem : Nat → Nat) (w : Nat) (base : Nat) : Nat :=
  mem (base + klass_part_offset_in_bytes w)

end KlassOop

/-! Helper lemmas shared by the claim theorems. -/

lemma copyWrites_of_ne (dst src : JavaFrameAnchor)
    (h : dst.last_Java_sp ≠ src.last_Java_sp) :
    copyWrites dst src =
      [⟨AnchorField.sp, 0⟩,
       ⟨AnchorField.fp, src.last_Java_fp⟩,
       ⟨AnchorField.pc, src.last_Java_pc⟩,
       ⟨AnchorField.sp, src.last_Java_sp⟩] := by
  simp [copyWrites, h]

lemma copy_eq_src (dst src : JavaFrameAnchor) : copy dst src = src := by
  by_cases h : dst.last_Java_sp = src.last_Java_sp <;>
    simp [copy, copyWrites, runWrites, applyWrite, h]

lemma mem_copy_states_of_ne (dst src s : JavaFrameAnchor)
    (h : dst.last_Java_sp ≠ src.last_Java_sp)
    (hs : s ∈ writeStates dst (copyWrites dst src))
    (hp : s.last_Java_sp ≠ 0) :
    s = dst ∨ s = copy dst src := by
  rw [copyWrites_of_ne dst src h] at hs
  simp only [writeStates, applyWrite, List.mem_cons, List.mem_singleton,
    List.not_mem_nil, or_false] at hs
  rcases hs with hs | hs | hs | hs | hs
  · exact Or.inl hs
  · subst hs; simp at hp
  · subst hs; simp at hp
  · subst hs; simp at hp
  · subst hs
    right
    rw [copy_eq_src]

lemma clear_states (a : JavaFrameAnchor) :
    writeStates a clearWrites =
      [a,
       ⟨0, a.last_Java_fp, a.last_Java_pc⟩,
       ⟨0, 0, a.last_Java_pc⟩,
       ⟨0, 0, 0⟩] := by
  simp [clearWrites, writeStates, applyWrite]

lemma clear_eq (a : JavaFrameAnchor) : clear a = ⟨0, 0, 0⟩ := by
  simp [clear, clearWrites, runWrites, applyWrite]

/-! Claim theorems. -/

/-- C1: when `copy` is called with an incoming `lastFrameSP` that differs from
the destination's current one, the stores are exactly: SP set to the absent
value first, then FP copied, then PC copied, then SP copied last; every
observable intermediate state with a present (non-absent) SP is either fully
the old state or fully the new state — never an old present SP paired with new
FP/PC — and after the copy all three destination fields equal the source's. -/
theorem copy_changed_sp_old_or_new (dst src : JavaFrameAnchor)
    (h : dst.last_Java_sp ≠ src.last_Java_sp) :
    copyWrites dst src =
      [⟨AnchorField.sp, 0⟩,
       ⟨AnchorField.fp, src.last_Java_fp⟩,
       ⟨AnchorField.pc, src.last_Java_pc⟩,
       ⟨AnchorField.sp, src.last_Java_sp⟩] ∧
    (∀ s ∈ writeStates dst (copyWrites dst src),
      s.last_Java_sp ≠ 0 → s = dst ∨ s = copy dst src) ∧
    copy dst src = src := by
  refine ⟨copyWrites_of_ne dst src h, ?_, copy_eq_src dst src⟩
  intro s hs hp
  exact mem_copy_states_of_ne dst src s h hs hp

/-- Witness for C1 at a concrete pair of anchors. -/
theorem copy_changed_sp_old_or_new_witness :
    (JavaFrameAnchor.mk 1 2 3).last_Java_sp ≠ (JavaFrameAnchor.mk 4 5 6).last_Java_sp ∧
    (copyWrites ⟨1, 2, 3⟩ ⟨4, 5, 6⟩ =
      [⟨AnchorField.sp, 0⟩, ⟨AnchorField.fp, 5⟩,
       ⟨AnchorField.pc, 6⟩, ⟨AnchorField.sp, 4⟩] ∧
    (∀ s ∈ writeStates ⟨1, 2, 3⟩ (copyWrites ⟨1, 2, 3⟩ ⟨4, 5, 6⟩),
      s.last_Java_sp ≠ 0 → s = ⟨1, 2, 3⟩ ∨ s = copy ⟨1, 2, 3⟩ ⟨4, 5, 6⟩) ∧
    copy ⟨1, 2, 3⟩ ⟨4, 5, 6⟩ = ⟨4, 5, 6⟩) :=
  ⟨by decide, copy_changed_sp_old_or_new ⟨1, 2, 3⟩ ⟨4, 5, 6⟩ (by decide)⟩

/-- C2 counterexample: during `copy` with an unchanged `lastFrameSP` (here
SP = 1) the reader can sample `⟨1, 5, 3⟩` — the new FP paired with the old PC
under a present SP — which is neither the complete pre-state `⟨1, 2, 3⟩` nor
the complete post-state `⟨1, 5, 6⟩`, refuting the claim that every sample
equals the full state strictly before or strictly after the update. -/
theorem copy_same_sp_mixed_sample :
    (JavaFrameAnchor.mk 1 5 3) ∈ samples ⟨1, 2, 3⟩ (AnchorOp.copyOp ⟨1, 5, 6⟩) ∧
    (JavaFrameAnchor.mk 1 5 3) ≠ ⟨1, 2, 3⟩ ∧
    (JavaFrameAnchor.mk 1 5 3) ≠ runOp ⟨1, 2, 3⟩ (AnchorOp.copyOp ⟨1, 5, 6⟩) ∧
    (JavaFrameAnchor.mk 1 5 3).last_Java_sp ≠ 0 ∧
    (JavaFrameAnchor.mk 1 5 3).last_Java_fp = (JavaFrameAnchor.mk 1 5 6).last_Java_fp ∧
    (JavaFrameAnchor.mk 1 5 3).last_Java_pc = (JavaFrameAnchor.mk 1 2 3).last_Java_pc := by
  decide

/-- C2 amended: for `clear`, and for `copy` whose incoming SP differs from the
current one, every sample a concurrent reader can obtain whose `lastFrameSP`
is present (non-absent) equals either the complete state before the update or
the complete state after it; a `copy` with unchanged SP may expose mixed FP/PC
under the unchanged SP, and samples with absent SP may mix fields. -/
theorem anchor_samples_consistent (a s : JavaFrameAnchor) (op : AnchorOp)
    (hg : sampleGuard a op = true)
    (hs : s ∈ samples a op)
    (hp : s.last_Java_sp ≠ 0) :
    s = a ∨ s = runOp a op := by
  cases op with
  | clearOp =>
      simp only [samples, opWrites, clear_states a, List.mem_cons,
        List.mem_singleton, List.not_mem_nil, or_false] at hs
      rcases hs with hs | hs | hs | hs
      · exact Or.inl hs
      · subst hs; simp at hp
      · subst hs; simp at hp
      · subst hs; simp at hp
  | copyOp src =>
      have h : a.last_Java_sp ≠ src.last_Java_sp := by
        simpa [sampleGuard] using hg
      exact mem_copy_states_of_ne a src s h hs hp

/-- Witness for the amended C2 at a concrete sample of a concrete copy. -/
theorem anchor_samples_consistent_witness :
    sampleGuard ⟨1, 2, 3⟩ (AnchorOp.copyOp ⟨4, 5, 6⟩) = true ∧
    (JavaFrameAnchor.mk 4 5 6) ∈ samples ⟨1, 2, 3⟩ (AnchorOp.copyOp ⟨4, 5, 6⟩) ∧
    (JavaFrameAnchor.mk 4 5 6).last_Java_sp ≠ 0 ∧
    ((JavaFrameAnchor.mk 4 5 6) = ⟨1, 2, 3⟩ ∨
      (JavaFrameAnchor.mk 4 5 6) = runOp ⟨1, 2, 3⟩ (AnchorOp.copyOp ⟨4, 5, 6⟩)) :=
  ⟨by decide, by decide, by decide,
    anchor_samples_consistent ⟨1, 2, 3⟩ ⟨4, 5, 6⟩ (AnchorOp.copyOp ⟨4, 5, 6⟩)
      (by decide) (by decide) (by decide)⟩

/-- C3: a fault raised by the protected store is swallowed by
`serialize_memory` (the call completes, with the empty handler body) exactly
when the fault filter classifies it as a real safepoint-page fault, and every
fault at any address other than the serialization page propagates unchanged
to outer handlers. -/
theorem serialize_memory_fault_containment (page a : Nat) :
    (serialize_memory page (WriteOutcome.fault a) = SEHResult.completed ↔
      serialize_fault_filter page a = EXCEPTION_EXECUTE_HANDLER) ∧
    (serialize_fault_filter page a = EXCEPTION_EXECUTE_HANDLER ↔ a = page) ∧
    (a ≠ page → serialize_memory page (WriteOutcome.fault a) = SEHResult.propagated a) := by
  refine ⟨?_, ?_, ?_⟩
  · constructor
    · intro hc
      by_contra hf
      simp [serialize_memory, hf] at hc
    · intro hf
      simp [serialize_memory, hf]
  · constructor
    · intro hf
      by_contra hne
      simp [serialize_fault_filter, hne, EXCEPTION_CONTINUE_SEARCH,
        EXCEPTION_EXECUTE_HANDLER] at hf
    · intro he
      simp [serialize_fault_filter, he]
  · intro hne
    simp [serialize_memory, serialize_fault_filter, hne,
      EXCEPTION_CONTINUE_SEARCH, EXCEPTION_EXECUTE_HANDLER]

/-- Witness for C3: a fault away from the serialization page propagates. -/
theorem serialize_memory_fault_containment_witness :
    (8192 ≠ 4096) ∧
    serialize_memory 4096 (WriteOutcome.fault 8192) = SEHResult.propagated 8192 :=
  ⟨by decide, (serialize_memory_fault_containment 4096 8192).2.2 (by decide)⟩

/-- C4: `clear` stores the absent value into `lastFrameSP` with its very
first write — every later intermediate state already has SP absent while
FP/PC are still being cleared — and after `clear` returns the anchor is fully
cleared, so any reader sees no managed frame. -/
theorem clear_writes_sp_first (a : JavaFrameAnchor) :
    writeStates a clearWrites =
      [a,
       ⟨0, a.last_Java_fp, a.last_Java_pc⟩,
       ⟨0, 0, a.last_Java_pc⟩,
       ⟨0, 0, 0⟩] ∧
    (∀ s ∈ (writeStates a clearWrites).tail, s.last_Java_sp = 0) ∧
    clear a = ⟨0, 0, 0⟩ := by
  refine ⟨clear_states a, ?_, clear_eq a⟩
  rw [clear_states a]
  intro s hs
  simp only [List.tail_cons, List.mem_cons, List.mem_singleton,
    List.not_mem_nil, or_false] at hs
  rcases hs with hs | hs | hs <;> subst hs <;> rfl

/-- C5 counterexample: `klass_part` performs no dereference of a stored
pointer field — on a heap whose every word holds 0, an accessor that loaded a
pointer at the fixed offset would return 0, while `klass_part` returns the
address `base + offset` itself (16 for base 0 and word size 8). -/
theorem klass_part_no_deref :
    klass_part 8 0 = 16 ∧
    klass_part_deref_spec (fun _ => 0) 8 0 = 0 ∧
    klass_part 8 0 ≠ klass_part_deref_spec (fun _ => 0) 8 0 := by
  refine ⟨rfl, rfl, ?_⟩
  decide

/-- C5 amended: the Descriptor (Klass part) is embedded inline in the Class
Object at the constant offset `sizeof(klassOopDesc)` = two machine words;
`klass_part` returns the address `object_base + constant_offset`, pointing
directly at the embedded descriptor, without loading any stored pointer
field, and that offset is the same constant for every Class Object. -/
theorem klass_part_addr (w base base' : Nat) :
    klass_part w base = base + 2 * w ∧
    klass_part w base - base = klass_part w base' - base' := by
  constructor
  · rfl
  · simp [klass_part, klass_part_offset_in_bytes, sizeofKlassOopDesc]

/-- C6: for a fixed machine word size (a compile-time constant of the process
run), `header_size` and `klass_part_offset_in_bytes` each return one fixed
value — 2 words and `2 * w` bytes — independent of any receiver or mutable
state (in the source both are `static` member functions of no arguments), and
the offset `klass_part` applies is identical for every Class Object. -/
theorem offsets_fixed (w base base' : Nat) (hw : 0 < w) :
    header_size w = 2 ∧
    klass_part_offset_in_bytes w = 2 * w ∧
    klass_part w base - base = klass_part w base' - base' := by
  refine ⟨?_, rfl, ?_⟩
  · unfold header_size sizeofKlassOopDesc
    exact Nat.mul_div_cancel _ hw
  · simp [klass_part, klass_part_offset_in_bytes, sizeofKlassOopDesc]

/-- Witness for C6 at word size 8 and two concrete object bases. -/
theorem offsets_fixed_witness :
    0 < 8 ∧
    (header_size 8 = 2 ∧
     klass_part_offset_in_bytes 8 = 2 * 8 ∧
     klass_part 8 0 - 0 = klass_part 8 40 - 40) :=
  ⟨by decide, offsets_fixed 8 0 40 (by decide)⟩

/-- C7: every frame anchor is walkable (`walkable` answers true on every
state) and `make_walkable` changes nothing, so there is no unwalkable
intermediate state. -/
theorem always_walkable (a : JavaFrameAnchor) (t : Nat) :
    walkable a = true ∧ make_walkable t a = a :=
  ⟨rfl, rfl⟩

/-- C8: `clear` is idempotent — clearing twice yields exactly the state of
clearing once. -/
theorem clear_idempotent (a : JavaFrameAnchor) :
    clear (clear a) = clear a := by
  rw [clear_eq a, clear_eq]

/-- C10: the descriptor offset equals the header size converted back to
bytes, and both equal `sizeof(klassOopDesc)` — the Klass part begins
immediately after the generic object header. -/
theorem klass_part_offset_eq_header_bytes (w : Nat) :
    klass_part_offset_in_bytes w = header_size w * w ∧
    klass_part_offset_in_bytes w = sizeofKlassOopDesc w ∧
    header_size w * w = sizeofKlassOopDesc w := by
  rcases Nat.eq_zero_or_pos w with h | h
  · subst h
    refine ⟨rfl, rfl, rfl⟩
  · have h2 : header_size w = 2 := by
      unfold header_size sizeofKlassOopDesc
      exact Nat.mul_div_cancel _ h
    refine ⟨?_, rfl, ?_⟩ <;> rw [h2] <;> rfl
